import Mathlib

/-!
Verification development for the soundswap-hub-backend scene-synthesis and
rendering pipeline (`beam_service/app.py`).

The Python source is shallowly embedded: pure functions become Lean
functions, stateful code becomes explicit state passing, machine floats on
the code paths modelled here only ever hold exact small rationals and are
embedded as `ℚ`, and Python `int` becomes `Nat`/`Int` with explicit
wrap-around where the algorithm (MD5) relies on 32-bit overflow.

External collaborators (PIL raster operations, the AI image service,
moviepy, Cloudinary) are cut at the narrow interfaces the spec names:
an image is represented by the data the code actually inspects — the
64 grayscale pixel values obtained after PIL's `grayscale` + `resize((8,8))`
— and network calls become explicit outcome parameters.
-/

set_option maxRecDepth 100000

namespace MD5

/-- `2^32`, the word modulus of MD5. -/
def M32 : Nat := 4294967296

/-- The 64 MD5 round constants `K[i] = floor(|sin(i+1)| * 2^32)`. -/
def K : List Nat :=
  [3614090360, 3905402710, 606105819, 3250441966, 4118548399, 1200080426,
   2821735955, 4249261313, 1770035416, 2336552879, 4294925233, 2304563134,
   1804603682, 4254626195, 2792965006, 1236535329, 4129170786, 3225465664,
   643717713, 3921069994, 3593408605, 38016083, 3634488961, 3889429448,
   568446438, 3275163606, 4107603335, 1163531501, 2850285829, 4243563512,
   1735328473, 2368359562, 4294588738, 2272392833, 1839030562, 4259657740,
   2763975236, 1272893353, 4139469664, 3200236656, 681279174, 3936430074,
   3572445317, 76029189, 3654602809, 3873151461, 530742520, 3299628645,
   4096336452, 1126891415, 2878612391, 4237533241, 1700485571, 2399980690,
   4293915773, 2240044497, 1873313359, 4264355552, 2734768916, 1309151649,
   4149444226, 3174756917, 718787259, 3951481745]

/-- The per-round left-rotation amounts. -/
def S : List Nat :=
  [7, 12, 17, 22, 7, 12, 17, 22, 7, 12, 17, 22, 7, 12, 17, 22,
   5, 9, 14, 20, 5, 9, 14, 20, 5, 9, 14, 20, 5, 9, 14, 20,
   4, 11, 16, 23, 4, 11, 16, 23, 4, 11, 16, 23, 4, 11, 16, 23,
   6, 10, 15, 21, 6, 10, 15, 21, 6, 10, 15, 21, 6, 10, 15, 21]

/-- 32-bit left rotation. -/
def rotl (x n : Nat) : Nat := ((x <<< n) ||| (x >>> (32 - n))) % M32

/-- 32-bit bitwise complement. -/
def notW (x : Nat) : Nat := x ^^^ (M32 - 1)

/-- MD5 padding: append `0x80`, zero bytes up to 56 mod 64, then the
original bit length as 8 little-endian bytes. -/
def pad (msg : List Nat) : List Nat :=
  let len := msg.length
  let zeros := (119 - len % 64) % 64
  let bitLen := (len * 8) % (2 ^ 64)
  msg ++ [128] ++ List.replicate zeros 0 ++
    ((List.range 8).map fun i => (bitLen >>> (8 * i)) % 256)

/-- Split a byte list into 64-byte chunks (fuel-driven recursion). -/
def chunksAux : Nat → List Nat → List (List Nat)
  | 0, _ => []
  | _, [] => []
  | n + 1, l => l.take 64 :: chunksAux n (l.drop 64)

def chunks (l : List Nat) : List (List Nat) := chunksAux l.length l

/-- The `j`-th little-endian 32-bit word of a 64-byte chunk. -/
def word (c : List Nat) (j : Nat) : Nat :=
  c.getD (4 * j) 0 + c.getD (4 * j + 1) 0 * 256 +
    c.getD (4 * j + 2) 0 * 65536 + c.getD (4 * j + 3) 0 * 16777216

/-- One MD5 round `i` on state `(a, b, c, d)` over chunk `m`. -/
def round (m : List Nat) (st : Nat × Nat × Nat × Nat) (i : Nat) :
    Nat × Nat × Nat × Nat :=
  let (a, b, c, d) := st
  let fg : Nat × Nat :=
    if i < 16 then ((b &&& c) ||| (notW b &&& d), i)
    else if i < 32 then ((d &&& b) ||| (notW d &&& c), (5 * i + 1) % 16)
    else if i < 48 then (b ^^^ c ^^^ d, (3 * i + 5) % 16)
    else (c ^^^ (b ||| notW d), (7 * i) % 16)
  let f := (fg.1 + a + K.getD i 0 + word m fg.2) % M32
  (d, (b + rotl f (S.getD i 0)) % M32, b, c)

/-- Process one 64-byte chunk, folding the 64 rounds and adding back in. -/
def processChunk (st : Nat × Nat × Nat × Nat) (m : List Nat) :
    Nat × Nat × Nat × Nat :=
  let r := (List.range 64).foldl (round m) st
  ((st.1 + r.1) % M32, (st.2.1 + r.2.1) % M32,
   (st.2.2.1 + r.2.2.1) % M32, (st.2.2.2 + r.2.2.2) % M32)

/-- The MD5 initial state. -/
def init : Nat × Nat × Nat × Nat := (1732584193, 4023233417, 2562383102, 271733878)

/-- Serialize one 32-bit word as four little-endian bytes. -/
def wordBytes (x : Nat) : List Nat :=
  [x % 256, (x >>> 8) % 256, (x >>> 16) % 256, (x >>> 24) % 256]

/-- MD5 digest of a byte list, as the 16 digest bytes. -/
def digestBytes (msg : List Nat) : List Nat :=
  let st := (chunks (pad msg)).foldl processChunk init
  wordBytes st.1 ++ wordBytes st.2.1 ++ wordBytes st.2.2.1 ++ wordBytes st.2.2.2

/-- MD5 hex digest, as the list of 32 hex-digit values (0–15), high nibble
of each byte first — one entry per character of Python's `hexdigest()`.
Two hexdigest characters are equal exactly when the digit values are. -/
def hexdigest (msg : List Nat) : List Nat :=
  (digestBytes msg).flatMap fun b => [b / 16, b % 16]

end MD5

example : MD5.hexdigest [] =
    [13, 4, 1, 13, 8, 12, 13, 9, 8, 15, 0, 0, 11, 2, 0, 4,
     14, 9, 8, 0, 0, 9, 9, 8, 14, 12, 15, 8, 4, 2, 7, 14] := by rfl

example : MD5.hexdigest [97, 98, 99] =
    [9, 0, 0, 1, 5, 0, 9, 8, 3, 12, 13, 2, 4, 15, 11, 0,
     13, 6, 9, 6, 3, 15, 7, 13, 2, 8, 14, 1, 7, 15, 7, 2] := by rfl

/-- An image as the uniqueness validator observes it: the 64 grayscale
pixel values produced by PIL `ImageOps.grayscale` + `resize((8, 8))`
(PIL is the spec's external image-composition collaborator, cut here). -/
abbrev Img := List Nat

namespace UniquenessValidator

/-- `UniquenessValidator.calculate_image_hash`: binarize each pixel
against the mean intensity (`sum(pixels) // len(pixels)`), then MD5 the
`'1'`/`'0'` character string (bytes 49/48). Result: the 32 hexdigest
characters, as hex-digit values. -/
def calculate_image_hash (img : Img) : List Nat :=
  let avg := img.sum / img.length
  MD5.hexdigest (img.map fun p => if p > avg then 49 else 48)

/-- The similarity computed inside `check_uniqueness`:
`sum(a == b for a, b in zip(new_hash, prev_hash)) / len(new_hash)` —
the fraction of matching characters of the two MD5 hex digests. -/
def hashSimilarity (newHash prevHash : List Nat) : ℚ :=
  (((newHash.zip prevHash).countP fun ab => ab.1 == ab.2 : Nat) : ℚ) /
    (newHash.length : ℚ)

/-- `UniquenessValidator.check_uniqueness`: returns `false` as soon as a
previously accepted image's digest similarity strictly exceeds the
threshold (default 0.85), else `true`. -/
def check_uniqueness (newImage : Img) (previousImages : List Img)
    (threshold : ℚ := 85 / 100) : Bool :=
  let newHash := calculate_image_hash newImage
  previousImages.all fun prev =>
    !(hashSimilarity newHash (calculate_image_hash prev) > threshold)

/-- Modelled from the spec (claim C2's wording), for comparison with the
source's `calculate_image_hash`: the raw binarized 8x8-grid fingerprint
bits, before any hashing. -/
def fingerprintBits (img : Img) : List Bool :=
  let avg := img.sum / img.length
  img.map fun p => decide (p > avg)

/-- Modelled from the spec (claim C2's wording): Hamming similarity as
the fraction of matching bits of the two grid fingerprints. -/
def bitSimilarity (b1 b2 : List Bool) : ℚ :=
  (((b1.zip b2).countP fun ab => ab.1 == ab.2 : Nat) : ℚ) / (b1.length : ℚ)

end UniquenessValidator

/-- A lyric line as the duration and scene-generation code reads it:
`{text, time?, duration?, mood?}`, with the code's dict-`get` defaults. -/
structure Lyric where
  text : String := ""
  time : Option ℚ := none
  duration : Option ℚ := none
  mood : String := "neutral"
deriving Repr, DecidableEq

/-- Python `str.split()` with no argument: split on whitespace runs and
discard empty pieces. -/
def pySplit (s : String) : List String :=
  (s.split Char.isWhitespace).filter fun w => !w.isEmpty

/-- `calculate_lyric_duration(lyric, bpm=120)`: an explicit `duration`
field is returned unchanged via `float(...)`; otherwise
`max(1, words / 4) * 60.0 / max(1, bpm)`, floored at 1.0. -/
def calculate_lyric_duration (lyric : Lyric) (bpm : ℤ := 120) : ℚ :=
  match lyric.duration with
  | some d => d
  | none =>
    let words : ℕ := (pySplit lyric.text).length
    let beats : ℚ := max 1 ((words : ℚ) / 4)
    let seconds_per_beat : ℚ := 60 / ((max 1 bpm : ℤ) : ℚ)
    max (beats * seconds_per_beat) 1

/-- `optimized_calculate_duration(lyric_text, bpm=120)`: the same formula
applied directly to a text (no explicit-duration branch). -/
def optimized_calculate_duration (lyric_text : String) (bpm : ℤ := 120) : ℚ :=
  let words : ℕ := (pySplit lyric_text).length
  let beats : ℚ := max 1 ((words : ℚ) / 4)
  let seconds_per_beat : ℚ := 60 / ((max 1 bpm : ℤ) : ℚ)
  max (beats * seconds_per_beat) 1

/-- UTF-8 bytes of a string, as `Nat`s, for hashing. -/
def strBytes (s : String) : List Nat := s.toUTF8.toList.map fun b => b.toNat

/-- Map a hex-digit value (0–15) to its lowercase hex character. -/
def hexChar (n : Nat) : Char :=
  if n < 10 then Char.ofNat (48 + n) else Char.ofNat (87 + n)

/-- A hex-digit-value list as the hex string Python's `hexdigest()`
returns. -/
def hexString (digest : List Nat) : String := String.mk (digest.map hexChar)

namespace ModelCache

/-- `ModelCache._max_size`. -/
def max_size : Nat := 100

/-- `ModelCache._cache`: an `OrderedDict`, modelled as an association
list ordered least-recently-used first, most-recently-used last, with
unique keys. Values are the cached generated backgrounds. -/
abbrev Cache := List (String × Img)

/-- `ModelCache.get_cache_key` for string arguments: join with `"|"` and
MD5 the result (`hashlib.md5("|".join(key_parts).encode()).hexdigest()`). -/
def get_cache_key (parts : List String) : String :=
  hexString (MD5.hexdigest (strBytes (String.intercalate "|" parts)))

/-- `ModelCache.cache_texture`: `OrderedDict` assignment plus
`move_to_end` (drop any old entry for the key, append at the MRU end),
then `popitem(last=False)` — evict the LRU head — when over capacity. -/
def cache_texture (key : String) (texture : Img) (c : Cache) : Cache :=
  let c' := (c.filter fun e => e.1 != key) ++ [(key, texture)]
  if c'.length > max_size then c'.tail else c'

/-- `ModelCache.get_cached_texture`: on a hit, `move_to_end` the entry
and return its value; on a miss return `none`, cache unchanged. -/
def get_cached_texture (key : String) (c : Cache) : Option Img × Cache :=
  match c.find? fun e => e.1 == key with
  | some kv => (some kv.2, (c.filter fun e => e.1 != key) ++ [kv])
  | none => (none, c)

/-- A cache operation, for stating properties of arbitrary op sequences. -/
inductive Op
  | put (key : String) (texture : Img)
  | get (key : String)

/-- Run one operation's state effect. -/
def applyOp (c : Cache) : Op → Cache
  | .put key texture => cache_texture key texture c
  | .get key => (get_cached_texture key c).2

/-- Run a sequence of cache operations. -/
def runOps (ops : List Op) (c : Cache) : Cache := ops.foldl applyOp c

end ModelCache

/-- A style profile, restricted to the fields the scene-generation and
rendering code reads off the selected profile dict (the generation-side
fields — keyword templates, moods, bpm range — are consumed only inside
`generate_styled_background`, which is behind the generation oracle). -/
structure StyleProfile where
  name : String
  font_tag : String
  animation_tag : String
  effect_tag : String
  color_tag : String
  intensity : String
deriving Repr, DecidableEq

/-- The `rendering_data` dict attached to every scene. -/
structure RenderingData where
  font_tag : String
  animation_tag : String
  effect_tag : String
  color_tag : String
  intensity : String
deriving Repr, DecidableEq

/-- A scene dict as both generation paths build it. `image` is the
payload of the `data:image/png;base64,...` URL. -/
structure Scene where
  id : Nat
  lyric : String
  image : Img
  time : ℚ
  duration : ℚ
  style : String
  rendering_data : RenderingData
deriving Repr, DecidableEq

/-- `rendering_data` as both paths assemble it from the style profile. -/
def StyleProfile.renderingData (sp : StyleProfile) : RenderingData :=
  { font_tag := sp.font_tag, animation_tag := sp.animation_tag,
    effect_tag := sp.effect_tag, color_tag := sp.color_tag,
    intensity := sp.intensity }

/-- The inbound job payload fields the generation pipeline reads. -/
structure JobData where
  songTitle : String := ""
  lyrics : List Lyric := []
  bpm : Option ℤ := none
  jobId : Option String := none
deriving Repr, DecidableEq

/-!
Scene generation. `generate_styled_background(lyric, style_profile)` sits
behind the AI-service/procedural fallback chain (external raster and HTTP
collaborators); its successive return values are supplied by an oracle
`gen : Nat → Img` indexed by call sequence number, which also captures its
nondeterminism (AI responses, unseeded randomness). Everything downstream
of the returned image is embedded from the source.
-/

/-- State threaded through the sequential `generate_styled_scenes` loop:
the process-wide `ModelCache._cache`, the job's `previous_images`, the
scenes built so far, and the generation-oracle cursor. -/
structure SeqState where
  cache : ModelCache.Cache
  previousImages : List Img
  scenes : List Scene
  calls : Nat
deriving Repr

/-- The inner `for attempt in range(max_attempts)` loop of
`generate_styled_scenes`, on the remaining attempt budget: look the key
up in `ModelCache._cache` (a raw dict read, no LRU promotion), generate
and cache on a miss, accept the image as soon as `check_uniqueness`
passes, and after the final attempt keep the last image anyway (logged
warning, not fatal). The `0` base case models the loop's unreachable
`image_base64 = None` initialization. -/
def runAttempts (gen : Nat → Img) (key : String) :
    Nat → ModelCache.Cache → List Img → Nat →
    Img × ModelCache.Cache × List Img × Nat
  | 0, cache, prev, calls => ([], cache, prev, calls)
  | budget + 1, cache, prev, calls =>
    match cache.find? fun e => e.1 == key with
    | some kv =>
      if UniquenessValidator.check_uniqueness kv.2 prev then
        (kv.2, cache, prev ++ [kv.2], calls)
      else if budget = 0 then
        (kv.2, cache, prev, calls)
      else
        runAttempts gen key budget cache prev calls
    | none =>
      if UniquenessValidator.check_uniqueness (gen calls) prev then
        (gen calls, ModelCache.cache_texture key (gen calls) cache,
          prev ++ [gen calls], calls + 1)
      else if budget = 0 then
        (gen calls, ModelCache.cache_texture key (gen calls) cache, prev,
          calls + 1)
      else
        runAttempts gen key budget
          (ModelCache.cache_texture key (gen calls) cache) prev (calls + 1)

/-- The `max_attempts = 3` bound of `generate_styled_scenes`. -/
def max_attempts : Nat := 3

/-- One iteration of the sequential loop body for lyric `i`: run the
attempt loop, compute the duration, and append the scene (`id = i + 1`).
The scene is appended whether or not a unique background was found. -/
def seqStep (gen : Nat → Img) (style : StyleProfile) (bpm : ℤ)
    (st : SeqState) (il : Nat × Lyric) : SeqState :=
  let i := il.1
  let lyric := il.2
  let key := ModelCache.get_cache_key [lyric.text, style.name, lyric.mood]
  let r := runAttempts gen key max_attempts st.cache st.previousImages st.calls
  let duration := calculate_lyric_duration lyric bpm
  let scene : Scene :=
    { id := i + 1,
      lyric := lyric.text,
      image := r.1,
      time := lyric.time.getD (st.scenes.map fun s => s.duration).sum,
      duration := duration,
      style := style.name,
      rendering_data := style.renderingData }
  { cache := r.2.1, previousImages := r.2.2.1,
    scenes := st.scenes ++ [scene], calls := r.2.2.2 }

/-- `generate_styled_scenes(data, style_profile)`, final state included
(`cache0` is the process-wide cache's prior contents). The per-lyric
`try/except` never fires in this model because the fallback chain behind
the oracle is total — the spec's guaranteed-terminal procedural path. -/
def generateStyledScenesState (data : JobData) (style : StyleProfile)
    (gen : Nat → Img) (cache0 : ModelCache.Cache) : SeqState :=
  data.lyrics.enum.foldl (seqStep gen style (data.bpm.getD 120))
    { cache := cache0, previousImages := [], scenes := [], calls := 0 }

/-- The scene list `generate_styled_scenes` returns. -/
def generate_styled_scenes (data : JobData) (style : StyleProfile)
    (gen : Nat → Img) (cache0 : ModelCache.Cache) : List Scene :=
  (generateStyledScenesState data style gen cache0).scenes

/-- One worker task of `ParallelProcessor.parallel_generate_scenes`
(`process_single_lyric` over `(i, lyric)`): a single generation attempt
— no retry loop, no cache — and `None` (scene dropped) when the
uniqueness check fails. `gen i` is worker `i`'s one oracle draw. Here
the worker body is one atomic unit; claim C7's model below splits the
shared-list read from the append. -/
def process_single_lyric (gen : Nat → Img) (style : StyleProfile)
    (prev : List Img) (i : Nat) (lyric : Lyric) : Option Scene × List Img :=
  let img := gen i
  if UniquenessValidator.check_uniqueness img prev then
    (some
      { id := i + 1,
        lyric := lyric.text,
        image := img,
        time := lyric.time.getD 0,
        duration := calculate_lyric_duration lyric 120,
        style := style.name,
        rendering_data := style.renderingData }, prev ++ [img])
  else
    (none, prev)

/-- One fan-in step of `parallel_generate_scenes`: worker `i` completes,
its scene (if any) is appended to the collected list and the shared
`previous_images` list is carried forward. -/
def parStep (lyrics : List Lyric) (style : StyleProfile) (gen : Nat → Img)
    (acc : List Scene × List Img) (i : Nat) : List Scene × List Img :=
  match lyrics[i]? with
  | some lyric =>
    let r := process_single_lyric gen style acc.2 i lyric
    (acc.1 ++ r.1.toList, r.2)
  | none => acc

/-- `ParallelProcessor.parallel_generate_scenes`: one worker per lyric
against the shared `previous_images` list, results collected in
completion order `sched` (a permutation of the indices), then
`scenes.sort(key=lambda x: x["id"])` — a stable sort by `id`. -/
def parallel_generate_scenes (lyrics : List Lyric) (style : StyleProfile)
    (gen : Nat → Img) (sched : List Nat) : List Scene :=
  ((sched.foldl (parStep lyrics style gen) ([], [])).1).mergeSort
    fun a b => a.id ≤ b.id

/-!
Fine-grained concurrency model for the shared `previous_images` list in
`parallel_generate_scenes`. In the source, a worker's body performs two
distinct actions on the shared list with no lock anywhere in
`ParallelProcessor`: (1) `check_uniqueness(image, previous_images)` — a
read — and (2) `previous_images.append(image)` — a write. Distinct
workers' actions may interleave arbitrarily between these two points.
-/

namespace SharedListRace

/-- Control state of one worker between its two shared-list actions. -/
inductive Phase
  | start
  | checked (unique : Bool)
  | done
deriving Repr, DecidableEq

/-- Shared `previous_images` plus each worker's control state and the
set of workers whose scene was accepted (appended). -/
structure State (n : Nat) where
  prev : List Img
  phase : Fin n → Phase
  accepted : List (Fin n)

/-- One worker's next atomic action: the uniqueness read, then (only if
the snapshot said unique) the append. -/
def step {n : Nat} (imgs : Fin n → Img) (s : State n) (w : Fin n) : State n :=
  match s.phase w with
  | .start =>
    { s with phase := fun v =>
        if v = w then .checked (UniquenessValidator.check_uniqueness (imgs w) s.prev)
        else s.phase v }
  | .checked true =>
    { prev := s.prev ++ [imgs w],
      phase := fun v => if v = w then .done else s.phase v,
      accepted := s.accepted ++ [w] }
  | .checked false =>
    { s with phase := fun v => if v = w then .done else s.phase v }
  | .done => s

/-- Run a schedule of worker actions from the initial state. -/
def run {n : Nat} (imgs : Fin n → Img) (sched : List (Fin n)) : State n :=
  sched.foldl (step imgs) { prev := [], phase := fun _ => .start, accepted := [] }

end SharedListRace

/-!
Animation dispatch (`apply_professional_animation` over
`ANIMATION_FUNCTION_MAP`). The animation functions themselves transform
moviepy clips (an external collaborator); here they are identified by
name, which is all the dispatch logic observes.
-/

/-- The `AnimationLibrary` functions referenced by
`ANIMATION_FUNCTION_MAP`. -/
inductive AnimFunc
  | animate_simple_fade
  | animate_slide_snap
  | animate_type_flicker
  | animate_wobble_pop
  | animate_shatter_shift
  | animate_particle_dissolve
  | animate_jitter_shake
  | animate_depth_fluid
  | animate_pulse_morph
deriving Repr, DecidableEq

/-- `ANIMATION_FUNCTION_MAP`, in source order. -/
def ANIMATION_FUNCTION_MAP : List (String × AnimFunc) :=
  [("float_fade", .animate_simple_fade),
   ("slide", .animate_slide_snap),
   ("typewriter", .animate_type_flicker),
   ("bounce", .animate_wobble_pop),
   ("glitch", .animate_shatter_shift),
   ("particles", .animate_particle_dissolve),
   ("float_fade_physics", .animate_simple_fade),
   ("jitter_damp", .animate_jitter_shake),
   ("type_pulse", .animate_type_flicker),
   ("wobble_spring", .animate_wobble_pop),
   ("shatter_collision", .animate_shatter_shift),
   ("slide_inertia", .animate_slide_snap),
   ("depth_gravity", .animate_depth_fluid),
   ("lofi_wobble", .animate_type_flicker),
   ("particle_decay", .animate_particle_dissolve),
   ("abstract_breath", .animate_pulse_morph),
   ("ANIMATION_FLOAT_FADE", .animate_simple_fade),
   ("ANIMATION_WOBBLE_POP", .animate_wobble_pop)]

/-- What `apply_professional_animation` does to the text overlay: a
registry function applied with the scene's duration and intensity, or
the fallback `text_clip.fadein(0.5).fadeout(0.5)`. -/
inductive AnimResult
  | applied (f : AnimFunc) (duration : ℚ) (intensity : String)
  | fallback (fadeinDur fadeoutDur : ℚ)
deriving Repr, DecidableEq

/-- The tag normalization in `apply_professional_animation`: when the
tag starts with `"ANIMATION_"`, `replace("ANIMATION_", "")` — every
occurrence — then lowercase. -/
def normalizeAnimationTag (animation_tag : String) : String :=
  if animation_tag.startsWith "ANIMATION_" then
    (animation_tag.replace "ANIMATION_" "").toLower
  else animation_tag

/-- `apply_professional_animation(text_clip, scene)`: normalize the
scene's animation tag, dispatch through `ANIMATION_FUNCTION_MAP`, fall
back to fixed 0.5s fades on an unknown tag. (The registry functions are
total on the moviepy side, so the `except` fallback never fires here.) -/
def apply_professional_animation (scene : Scene) : AnimResult :=
  match ANIMATION_FUNCTION_MAP.find? fun e =>
      e.1 == normalizeAnimationTag scene.rendering_data.animation_tag with
  | some e => .applied e.2 scene.duration scene.rendering_data.intensity
  | none => .fallback (1 / 2) (1 / 2)

/-- Modelled from the spec (claim C8's wording), for comparison with the
source's normalization: strip one leading `"ANIMATION_"` prefix, then
lowercase. -/
def specNormalizeAnimationTag (animation_tag : String) : String :=
  if animation_tag.startsWith "ANIMATION_" then
    (animation_tag.drop 10).toLower
  else animation_tag

/-!
Upload step (`upload_to_cloudinary` and
`OptimizedVideoPipeline._upload_with_lifecycle`). External effects are
explicit parameters: the three credential environment variables (Python
truthiness: set and non-empty), the `VideoFileClip` duration probe
(`none` = it raised), the `cloudinary.uploader.upload` call (`Except`
error = it raised), and `int(time.time())`.
-/

/-- The upload-result dict shape both functions return. -/
structure UploadResult where
  secure_url : String
  public_id : String
  duration : ℚ
  format : String
  local_path : Option String := none
  error : Option String := none
deriving Repr, DecidableEq

/-- Python truthiness of an optional environment string. -/
def envTruthy : Option String → Bool
  | some s => !s.isEmpty
  | none => false

/-- `upload_to_cloudinary(video_path, data)`. -/
def upload_to_cloudinary (video_path : String)
    (cloudName apiKey apiSecret : Option String) (probeDuration : Option ℚ)
    (uploadOutcome : Except String UploadResult) (now : Nat) : UploadResult :=
  if !(envTruthy cloudName && envTruthy apiKey && envTruthy apiSecret) then
    { secure_url := "file://" ++ video_path,
      public_id := "local-test-" ++ toString now,
      duration := probeDuration.getD 0,
      format := "mp4",
      local_path := some video_path }
  else
    match uploadOutcome with
    | .ok r => r
    | .error e =>
      { secure_url := "file://" ++ video_path,
        public_id := "local-fallback-" ++ toString now,
        duration := 0,
        format := "mp4",
        local_path := some video_path,
        error := some e }

/-- `OptimizedVideoPipeline._upload_with_lifecycle(video_path, data)`:
the same control flow; it differs from `upload_to_cloudinary` only in
the expiry context/tags metadata handed to the external upload call. -/
def uploadWithLifecycle (video_path : String)
    (cloudName apiKey apiSecret : Option String) (probeDuration : Option ℚ)
    (uploadOutcome : Except String UploadResult) (now : Nat) : UploadResult :=
  if !(envTruthy cloudName && envTruthy apiKey && envTruthy apiSecret) then
    { secure_url := "file://" ++ video_path,
      public_id := "local-test-" ++ toString now,
      duration := probeDuration.getD 0,
      format := "mp4",
      local_path := some video_path }
  else
    match uploadOutcome with
    | .ok r => r
    | .error e =>
      { secure_url := "file://" ++ video_path,
        public_id := "local-fallback-" ++ toString now,
        duration := 0,
        format := "mp4",
        local_path := some video_path,
        error := some e }

/-!
Storage lifecycle (`StorageLifecycleManager`): the `pending_deletions`
table and its two removal paths.
-/

namespace StorageLifecycleManager

/-- `self.expiry_hours = 24`. -/
def expiry_hours : ℚ := 24

/-- The `pending_deletions` dict: `asset_id → expiry_time`, an
association list with unique keys in insertion order. -/
abbrev PendingTable := List (String × ℚ)

/-- Python dict assignment: update in place if present, else append. -/
def dictInsert (k : String) (v : ℚ) (t : PendingTable) : PendingTable :=
  if t.any fun e => e.1 == k then
    t.map fun e => if e.1 == k then (k, v) else e
  else t ++ [(k, v)]

/-- `schedule_deletion`'s effect on the table: record
`expiry_time = time.time() + expiry_hours * 3600`. -/
def schedule_deletion (asset_id : String) (now : ℚ) (t : PendingTable) :
    PendingTable :=
  dictInsert asset_id (now + expiry_hours * 3600) t

/-- `_cleanup_pending_deletions`: collect every entry with
`now >= expiry_time`, then delete them all. -/
def cleanup_pending_deletions (now : ℚ) (t : PendingTable) : PendingTable :=
  t.filter fun e => !(now ≥ e.2)

/-- `_perform_scheduled_cleanup`'s effect on the pending table. The
cloudinary sweep catches its own exceptions, but the try-block then
reads `self.s3_available` — an attribute no code ever assigns
(`__init__` sets only `storage_backend`, `expiry_hours`,
`pending_deletions`, `cleanup_lock` and `cloudinary_available`) — so
every cycle raises `AttributeError` there, caught by the method's
`except` *before* the `_cleanup_pending_deletions()` call is reached:
the sweep leaves the pending table unchanged. -/
def perform_scheduled_cleanup (_now : ℚ) (t : PendingTable) : PendingTable :=
  t

/-- Storage backends of `delete_asset`. -/
inductive StorageType
  | cloudinary
  | s3
deriving Repr, DecidableEq

/-- What `delete_asset`'s try-block does up to the entry removal:
which backend branch runs, and whether anything raises. `available` =
`self.cloudinary_available`, `urlMatch` = whether the Cloudinary URL
regex extracted a public id, `destroy` = the remote delete call
(`Except` error = it raised). On a `"cloudinary"`-typed call the `elif`
guard short-circuits at `storage_type == "s3"` without touching
`self.s3_available`; on an `"s3"`-typed call that `elif` reads
`self.s3_available`, which no code ever assigns, so the try-block
always raises `AttributeError` before any removal. -/
def remoteDeleteCall (storage_type : StorageType) (available urlMatch : Bool)
    (destroy : Except String Unit) : Except String Unit :=
  match storage_type with
  | .cloudinary => if available && urlMatch then destroy else .ok ()
  | .s3 =>
    .error "AttributeError: no attribute s3_available"

/-- `delete_asset(asset_id, asset_url, storage_type)`: returns the
success flag and the updated table. The `pending_deletions` entry is
removed whenever the try-block completes, and kept (with `False`
returned) when the remote call raises. -/
def delete_asset (storage_type : StorageType) (available urlMatch : Bool)
    (destroy : Except String Unit) (asset_id : String) (t : PendingTable) :
    Bool × PendingTable :=
  match remoteDeleteCall storage_type available urlMatch destroy with
  | .ok _ => (true, t.filter fun e => e.1 != asset_id)
  | .error _ => (false, t)

end StorageLifecycleManager

/-- Fixture image: one bright pixel among 63 dark ones. Its binarized
fingerprint is `1` followed by 63 `0`s (mean intensity 3). -/
def imgA : Img := 255 :: List.replicate 63 0

/-- Fixture image: all-dark. Its binarized fingerprint is 64 `0`s —
differing from `imgA`'s in exactly one bit. -/
def imgB : Img := List.replicate 64 0

/-! Shared concrete fixtures for counterexamples and witnesses. -/

/-- A concrete style profile (the `dreamy_ethereal` default's
rendering-relevant fields). -/
def styleD : StyleProfile :=
  { name := "dreamy_ethereal", font_tag := "ethereal_serif",
    animation_tag := "float_fade", effect_tag := "soft_glow",
    color_tag := "pastel_dream", intensity := "medium" }

/-- A concrete lyric line. -/
def lyricLa : Lyric := { text := "la la la" }

/- ===================== Claim C2 ===================== -/

/-- C2 counterexample: images `imgB` (candidate) and `imgA` (accepted)
whose binarized-grid fingerprints agree on 63 of 64 bits — Hamming
similarity 63/64 > 0.85, so the claim requires `check_uniqueness` to
return `False` — yet the code compares the MD5 hex digests of the bit
strings, which agree on only 4 of 32 characters, and returns `True`. -/
theorem check_uniqueness_bit_similarity_counterexample :
    UniquenessValidator.bitSimilarity
        (UniquenessValidator.fingerprintBits imgB)
        (UniquenessValidator.fingerprintBits imgA) > 85 / 100 ∧
    UniquenessValidator.hashSimilarity
        (UniquenessValidator.calculate_image_hash imgB)
        (UniquenessValidator.calculate_image_hash imgA) = 4 / 32 ∧
    UniquenessValidator.check_uniqueness imgB [imgA] = true := by
  refine ⟨?_, ?_, ?_⟩
  · with_unfolding_all decide
  · with_unfolding_all rfl
  · with_unfolding_all rfl

/-- C2 as amended: `check_uniqueness(candidate, accepted, threshold)`
returns `False` iff some previously accepted image's MD5 hex digest of
the binarized-grid bit string matches the candidate's digest in a
fraction of characters strictly exceeding the threshold (default 0.85);
on an empty accepted list it always returns `True`. -/
theorem check_uniqueness_iff_hash_similarity (cand : Img)
    (accepted : List Img) (threshold : ℚ) :
    (UniquenessValidator.check_uniqueness cand accepted threshold = false ↔
      ∃ p ∈ accepted,
        UniquenessValidator.hashSimilarity
          (UniquenessValidator.calculate_image_hash cand)
          (UniquenessValidator.calculate_image_hash p) > threshold) ∧
    UniquenessValidator.check_uniqueness cand [] threshold = true := by
  constructor
  · simp [UniquenessValidator.check_uniqueness, List.all_eq_true]
  · rfl

/- ===================== Claim C4 ===================== -/

/-- C4: for a lyric without an explicit `duration` field, the derived
duration is `max(1, max(1, words/4) * 60/max(1, bpm))`: it is always at
least 1, is monotonically non-decreasing in the whitespace-separated
word count for any fixed `bpm`, and for `bpm ≥ 1` equals the claim's
closed form `max(1.0, max(1, word_count/4) * 60/bpm)`. -/
theorem calculate_lyric_duration_floor_mono (lyric lyric' : Lyric) (bpm : ℤ)
    (h : lyric.duration = none) (h' : lyric'.duration = none)
    (hw : (pySplit lyric.text).length ≤ (pySplit lyric'.text).length) :
    1 ≤ calculate_lyric_duration lyric bpm ∧
    calculate_lyric_duration lyric bpm ≤ calculate_lyric_duration lyric' bpm ∧
    (1 ≤ bpm → calculate_lyric_duration lyric bpm
      = max 1 (max 1 (((pySplit lyric.text).length : ℚ) / 4) *
          (60 / (bpm : ℚ)))) := by
  unfold calculate_lyric_duration
  rw [h, h']
  refine ⟨le_max_right _ _, ?_, ?_⟩
  · apply max_le_max _ le_rfl
    apply mul_le_mul_of_nonneg_right
    · exact max_le_max le_rfl <| by
        apply div_le_div_of_nonneg_right _ _ <;> first
          | exact_mod_cast hw
          | norm_num
    · apply div_nonneg (by norm_num)
      have : (1 : ℤ) ≤ max 1 bpm := le_max_left 1 bpm
      exact_mod_cast this.trans' (by norm_num)
  · intro hbpm
    rw [max_eq_right hbpm, max_comm]

/-- C4 witness: a 2-word and a 9-word lyric at `bpm = 60`. -/
theorem calculate_lyric_duration_floor_mono_witness :
    1 ≤ calculate_lyric_duration { text := "hello world" } 60 ∧
    calculate_lyric_duration { text := "hello world" } 60 ≤
      calculate_lyric_duration
        { text := "one two three four five six seven eight nine" } 60 ∧
    (1 ≤ (60 : ℤ) → calculate_lyric_duration { text := "hello world" } 60
      = max 1 (max 1 (((pySplit "hello world").length : ℚ) / 4) *
          (60 / ((60 : ℤ) : ℚ)))) :=
  calculate_lyric_duration_floor_mono
    { text := "hello world" }
    { text := "one two three four five six seven eight nine" } 60 rfl rfl
    (by with_unfolding_all decide)

/- ===================== Claim C10 ===================== -/

/-- C10: an explicit `duration` field is returned unchanged for every
`bpm` — the 1.0 floor applies only to the derived branch. -/
theorem calculate_lyric_duration_explicit (lyric : Lyric) (d : ℚ) (bpm : ℤ)
    (h : lyric.duration = some d) :
    calculate_lyric_duration lyric bpm = d := by
  unfold calculate_lyric_duration
  rw [h]

/-- C10 witness: an explicit duration of 1/2 — below the derived-path
floor of 1 — comes back unchanged at `bpm = 240`. -/
theorem calculate_lyric_duration_explicit_witness :
    calculate_lyric_duration { text := "hello", duration := some (1 / 2) } 240
      = 1 / 2 :=
  calculate_lyric_duration_explicit
    { text := "hello", duration := some (1 / 2) } (1 / 2) 240 rfl

/- ===================== Claim C8 ===================== -/

/-- C8 counterexample: the tag `"ANIMATION_ANIMATION_SLIDE"`. Under the
claim's normalization — strip one leading `"ANIMATION_"` prefix and
lowercase — it becomes `"animation_slide"`, which is not in the
registry, so the claim requires the 0.5s fade fallback; but the code's
`replace("ANIMATION_", "")` removes every occurrence, yielding
`"slide"`, and the slide animation is applied instead. -/
theorem apply_professional_animation_prefix_counterexample :
    specNormalizeAnimationTag "ANIMATION_ANIMATION_SLIDE"
        = "animation_slide" ∧
    (ANIMATION_FUNCTION_MAP.find? fun e =>
        e.1 == specNormalizeAnimationTag "ANIMATION_ANIMATION_SLIDE")
        = none ∧
    apply_professional_animation
      { id := 1, lyric := "x", image := [], time := 0, duration := 2,
        style := "s",
        rendering_data :=
          { font_tag := "f", animation_tag := "ANIMATION_ANIMATION_SLIDE",
            effect_tag := "e", color_tag := "c", intensity := "medium" } }
      = .applied .animate_slide_snap 2 "medium" := by
  refine ⟨?_, ?_, ?_⟩ <;> with_unfolding_all rfl

/-- C8 as amended: when the animation tag starts with `"ANIMATION_"`,
the lookup key is the tag with every occurrence of `"ANIMATION_"`
removed, lowercased; and whenever the normalized tag is not in
`ANIMATION_FUNCTION_MAP`, the overlay gets the fixed fallback of a
0.5-second fade-in and 0.5-second fade-out. -/
theorem apply_professional_animation_fallback (scene : Scene) :
    (scene.rendering_data.animation_tag.startsWith "ANIMATION_" = true →
      normalizeAnimationTag scene.rendering_data.animation_tag
        = (scene.rendering_data.animation_tag.replace "ANIMATION_" "").toLower) ∧
    ((ANIMATION_FUNCTION_MAP.find? fun e =>
        e.1 == normalizeAnimationTag scene.rendering_data.animation_tag) = none →
      apply_professional_animation scene = .fallback (1 / 2) (1 / 2)) := by
  constructor
  · intro h
    unfold normalizeAnimationTag
    rw [if_pos h]
  · intro h
    unfold apply_professional_animation
    rw [h]

/-- C8 witness: a prefixed tag is normalized by replace-all + lowercase,
and the unknown tag `"sparkle"` falls back to the 0.5s fades. -/
theorem apply_professional_animation_fallback_witness :
    normalizeAnimationTag "ANIMATION_WOBBLE_POP" = "wobble_pop" ∧
    apply_professional_animation
      { id := 1, lyric := "x", image := [], time := 0, duration := 3,
        style := "s",
        rendering_data :=
          { font_tag := "f", animation_tag := "sparkle", effect_tag := "e",
            color_tag := "c", intensity := "low" } }
      = .fallback (1 / 2) (1 / 2) := by
  constructor
  · exact (apply_professional_animation_fallback
      { id := 1, lyric := "x", image := [], time := 0, duration := 3,
        style := "s",
        rendering_data :=
          { font_tag := "f", animation_tag := "ANIMATION_WOBBLE_POP",
            effect_tag := "e", color_tag := "c", intensity := "low" } }).1
      (by with_unfolding_all rfl) |>.trans (by with_unfolding_all rfl)
  · exact (apply_professional_animation_fallback _).2 (by with_unfolding_all rfl)

/- ===================== Claim C9 ===================== -/

/-- C9: when the Cloudinary credentials are not all present (Python
truthiness) or the upload call raises, both `upload_to_cloudinary` and
`_upload_with_lifecycle` still return normally, with `secure_url` a
local `file://` reference to the rendered video and a `local-…`
public id — an upload failure never fails the job. -/
theorem upload_falls_back_to_local (video_path : String)
    (cloudName apiKey apiSecret : Option String) (probeDuration : Option ℚ)
    (uploadOutcome : Except String UploadResult) (now : Nat)
    (h : (envTruthy cloudName && envTruthy apiKey && envTruthy apiSecret)
        = false ∨ ∃ e, uploadOutcome = .error e) :
    ((upload_to_cloudinary video_path cloudName apiKey apiSecret
        probeDuration uploadOutcome now).secure_url
      = "file://" ++ video_path ∧
     ((upload_to_cloudinary video_path cloudName apiKey apiSecret
        probeDuration uploadOutcome now).public_id
        = "local-test-" ++ toString now ∨
      (upload_to_cloudinary video_path cloudName apiKey apiSecret
        probeDuration uploadOutcome now).public_id
        = "local-fallback-" ++ toString now)) ∧
    ((uploadWithLifecycle video_path cloudName apiKey apiSecret
        probeDuration uploadOutcome now).secure_url
      = "file://" ++ video_path ∧
     ((uploadWithLifecycle video_path cloudName apiKey apiSecret
        probeDuration uploadOutcome now).public_id
        = "local-test-" ++ toString now ∨
      (uploadWithLifecycle video_path cloudName apiKey apiSecret
        probeDuration uploadOutcome now).public_id
        = "local-fallback-" ++ toString now)) := by
  unfold upload_to_cloudinary uploadWithLifecycle
  rcases h with h | ⟨e, he⟩
  · rw [h]
    exact ⟨⟨rfl, Or.inl rfl⟩, ⟨rfl, Or.inl rfl⟩⟩
  · subst he
    by_cases hc :
        (envTruthy cloudName && envTruthy apiKey && envTruthy apiSecret) = true
    · rw [hc]
      exact ⟨⟨rfl, Or.inr rfl⟩, ⟨rfl, Or.inr rfl⟩⟩
    · rw [Bool.not_eq_true] at hc
      rw [hc]
      exact ⟨⟨rfl, Or.inl rfl⟩, ⟨rfl, Or.inl rfl⟩⟩

/-- C9 witness: missing credentials at a concrete path and clock. -/
theorem upload_falls_back_to_local_witness :
    ((upload_to_cloudinary "/tmp/out.mp4" none none none (some 12)
        (.ok { secure_url := "u", public_id := "p", duration := 12,
               format := "mp4" }) 1700000000).secure_url
      = "file://" ++ "/tmp/out.mp4" ∧
     ((upload_to_cloudinary "/tmp/out.mp4" none none none (some 12)
        (.ok { secure_url := "u", public_id := "p", duration := 12,
               format := "mp4" }) 1700000000).public_id
        = "local-test-" ++ toString 1700000000 ∨
      (upload_to_cloudinary "/tmp/out.mp4" none none none (some 12)
        (.ok { secure_url := "u", public_id := "p", duration := 12,
               format := "mp4" }) 1700000000).public_id
        = "local-fallback-" ++ toString 1700000000)) ∧
    ((uploadWithLifecycle "/tmp/out.mp4" none none none (some 12)
        (.ok { secure_url := "u", public_id := "p", duration := 12,
               format := "mp4" }) 1700000000).secure_url
      = "file://" ++ "/tmp/out.mp4" ∧
     ((uploadWithLifecycle "/tmp/out.mp4" none none none (some 12)
        (.ok { secure_url := "u", public_id := "p", duration := 12,
               format := "mp4" }) 1700000000).public_id
        = "local-test-" ++ toString 1700000000 ∨
      (uploadWithLifecycle "/tmp/out.mp4" none none none (some 12)
        (.ok { secure_url := "u", public_id := "p", duration := 12,
               format := "mp4" }) 1700000000).public_id
        = "local-fallback-" ++ toString 1700000000)) :=
  upload_falls_back_to_local "/tmp/out.mp4" none none none (some 12)
    (.ok { secure_url := "u", public_id := "p", duration := 12,
           format := "mp4" }) 1700000000 (Or.inl rfl)

/- ===================== Claim C6 ===================== -/

/-- C6: the hourly sweep never removes a pending-deletion entry. At the
failing input — an already-expired entry `("a", 7)` and a sweep at time
10 — the sweep leaves the table unchanged (first conjunct), because
every `_perform_scheduled_cleanup` cycle raises `AttributeError` on the
never-assigned `s3_available` before `_cleanup_pending_deletions` is
reached; the unreachable `_cleanup_pending_deletions` itself would have
removed the expired entry (second conjunct), showing the intended — and
claimed — sweep behavior the slip disables. The claim's other removal
path does work: a successful `delete_asset` clears the entry (third
conjunct), while an `"s3"`-typed call raises on the same missing
attribute, returns `False` and keeps the entry (fourth conjunct). -/
theorem pending_deletion_sweep_never_cleans :
    StorageLifecycleManager.perform_scheduled_cleanup 10 [("a", 7)]
        = [("a", 7)] ∧
    StorageLifecycleManager.cleanup_pending_deletions 10 [("a", 7)] = [] ∧
    StorageLifecycleManager.delete_asset .cloudinary true true (.ok ()) "a"
        [("a", 7)] = (true, []) ∧
    StorageLifecycleManager.delete_asset .s3 true true (.ok ()) "a"
        [("a", 7)] = (false, [("a", 7)]) := by
  refine ⟨rfl, ?_, ?_, ?_⟩ <;> with_unfolding_all rfl

/- ===================== Claim C5 ===================== -/

namespace ModelCache

/-- With unique keys, the hit entry is the only one the promoting filter
removes, so a `get_cached_texture` hit preserves the entry count. -/
lemma length_filter_of_find_some {key : String} {c : Cache}
    {kv : String × Img} (hnd : (c.map Prod.fst).Nodup)
    (h : c.find? (fun e => e.1 == key) = some kv) :
    (c.filter fun e => e.1 != key).length + 1 = c.length := by
  induction c with
  | nil => simp at h
  | cons a c ih =>
    simp only [List.map_cons, List.nodup_cons] at hnd
    by_cases ha : (a.1 == key) = true
    · have hkey : a.1 = key := eq_of_beq ha
      have hrest : ∀ e ∈ c, (e.1 != key) = true := by
        intro e he
        have hma : e.1 ∈ List.map Prod.fst c := List.mem_map_of_mem Prod.fst he
        have hne : e.1 ≠ key := by
          intro hc
          apply hnd.1
          rwa [hkey, ← hc]
        simp [bne_iff_ne, hne]
      rw [List.filter_cons_of_neg (by simp [bne, ha]),
        List.filter_eq_self.mpr hrest]
      simp
    · rw [@List.find?_cons_of_neg _ (fun e => e.1 == key) a c ha] at h
      rw [List.filter_cons_of_pos (by simp [bne, ha])]
      simpa using ih hnd.2 h

/-- `cache_texture` keeps the entry count within `_max_size`. -/
lemma cache_texture_length_le {key : String} {tex : Img} {c : Cache}
    (h : c.length ≤ max_size) :
    (cache_texture key tex c).length ≤ max_size := by
  unfold cache_texture
  have hf := List.length_filter_le (fun e => e.1 != key) c
  by_cases hlen :
      ((c.filter fun e => e.1 != key) ++ [(key, tex)]).length > max_size
  · rw [if_pos hlen]
    rw [List.length_tail, List.length_append]
    simp only [List.length_singleton]
    omega
  · rw [if_neg hlen]
    omega

/-- `get_cached_texture` never increases the entry count. -/
lemma get_cached_texture_length_le {key : String} {c : Cache}
    (h : c.length ≤ max_size) :
    (get_cached_texture key c).2.length ≤ max_size := by
  unfold get_cached_texture
  cases hf : c.find? fun e => e.1 == key with
  | none => simpa using h
  | some kv =>
    simp only [List.length_append, List.length_singleton]
    have hlt : (c.filter fun e => e.1 != key).length < c.length := by
      rw [List.length_filter_lt_length_iff_exists]
      exact ⟨kv, List.mem_of_find?_eq_some hf,
        by simp [bne, List.find?_some hf]⟩
    omega

/-- The size invariant holds along any operation sequence. -/
lemma runOps_length_le (ops : List Op) :
    ∀ c : Cache, c.length ≤ max_size → (runOps ops c).length ≤ max_size := by
  induction ops with
  | nil => intro c h; exact h
  | cons op ops ih =>
    intro c h
    cases op with
    | put key tex => exact ih _ (cache_texture_length_le h)
    | get key => exact ih _ (get_cached_texture_length_le h)

/-- Inserting entries with fresh, pairwise-distinct keys into the empty
cache keeps exactly the most recent `_max_size` of them, in order. -/
lemma insertAll_fresh (ps : List (String × Img))
    (hnd : (ps.map Prod.fst).Nodup) :
    ps.foldl (fun c kv => cache_texture kv.1 kv.2 c) []
      = ps.drop (ps.length - max_size) := by
  induction ps using List.reverseRecOn with
  | nil => rfl
  | append_singleton ps p ih =>
    obtain ⟨k, v⟩ := p
    rw [List.map_append, List.nodup_append] at hnd
    obtain ⟨h1, _, hdisj⟩ := hnd
    rw [List.foldl_append, ih h1, List.foldl_cons, List.foldl_nil]
    have hfresh : ∀ e ∈ ps.drop (ps.length - max_size), (e.1 != k) = true := by
      intro e he
      have hm : e.1 ∈ ps.map Prod.fst :=
        List.mem_map_of_mem Prod.fst (List.mem_of_mem_drop he)
      have hne : e.1 ≠ k := fun hc => hdisj hm (by simp [hc])
      simp [bne_iff_ne, hne]
    unfold cache_texture
    rw [List.filter_eq_self.mpr hfresh,
      show (ps ++ [(k, v)]).length = ps.length + 1 by
        rw [List.length_append, List.length_singleton]]
    have hdl : (ps.drop (ps.length - max_size)).length
        = ps.length - (ps.length - max_size) := List.length_drop _ _
    by_cases hcap : ps.length < max_size
    · have hcond :
          ¬((ps.drop (ps.length - max_size) ++ [(k, v)]).length > max_size) := by
        rw [List.length_append, hdl]
        simp only [List.length_singleton]
        omega
      rw [if_neg hcond, show ps.length - max_size = 0 by omega,
        show ps.length + 1 - max_size = 0 by omega, List.drop_zero,
        List.drop_zero]
    · have hcond :
          (ps.drop (ps.length - max_size) ++ [(k, v)]).length > max_size := by
        rw [List.length_append, hdl]
        simp only [List.length_singleton]
        omega
      rw [if_pos hcond]
      have hms0 : (0 : Nat) < max_size := by norm_num [max_size]
      have hne : ps.drop (ps.length - max_size) ≠ [] := by
        intro hc
        rw [hc] at hdl
        simp at hdl
        omega
      obtain ⟨a, as, has⟩ := List.exists_cons_of_ne_nil hne
      have has' : (ps.drop (ps.length - max_size)).tail = as := by
        rw [has, List.tail_cons]
      rw [has, List.cons_append, List.tail_cons, ← has', List.tail_drop,
        List.drop_append_of_le_length
          (show ps.length + 1 - max_size ≤ ps.length by omega),
        show ps.length - max_size + 1 = ps.length + 1 - max_size by omega]

/-- `get_cached_texture` on a present key (unique keys): returns the
cached value, promotes the entry to the most-recently-used end, and
preserves the entry count. -/
lemma get_cached_texture_promotes {key : String} {c : Cache}
    {kv : String × Img} (hnd : (c.map Prod.fst).Nodup)
    (h : c.find? (fun e => e.1 == key) = some kv) :
    (get_cached_texture key c).1 = some kv.2 ∧
    (get_cached_texture key c).2.getLast? = some kv ∧
    (get_cached_texture key c).2.length = c.length := by
  unfold get_cached_texture
  rw [h]
  refine ⟨rfl, List.getLast?_concat _, ?_⟩
  have := length_filter_of_find_some hnd h
  rw [List.length_append]
  simp only [List.length_singleton]
  omega

/-- `cache_texture` leaves the inserted key most-recently-used. -/
lemma cache_texture_mru (key : String) (tex : Img) (c : Cache) :
    (cache_texture key tex c).getLast? = some (key, tex) := by
  unfold cache_texture
  by_cases hlen :
      ((c.filter fun e => e.1 != key) ++ [(key, tex)]).length > max_size
  · rw [if_pos hlen]
    cases hxs : c.filter fun e => e.1 != key with
    | nil =>
      rw [hxs] at hlen
      simp [max_size] at hlen
    | cons a as =>
      rw [List.cons_append, List.tail_cons, List.getLast?_concat]
  · rw [if_neg hlen]
    exact List.getLast?_concat _

end ModelCache

/-- C5: the content cache is a bounded LRU map — (i) starting from the
empty cache, no sequence of `cache_texture`/`get_cached_texture`
operations ever leaves more than `_max_size` entries; (ii) inserting
`_max_size + 1` entries with distinct keys into the empty cache evicts
exactly the least-recently-used (first-inserted) entry, keeping the
rest in order; (iii) a `get_cached_texture` hit returns the cached
value and promotes the entry to most-recently-used without changing the
entry count; (iv) `cache_texture` always leaves its key
most-recently-used. -/
theorem model_cache_lru :
    (∀ ops : List ModelCache.Op,
      (ModelCache.runOps ops []).length ≤ ModelCache.max_size) ∧
    (∀ ps : List (String × Img), (ps.map Prod.fst).Nodup →
      ps.length = ModelCache.max_size + 1 →
      ps.foldl (fun c kv => ModelCache.cache_texture kv.1 kv.2 c) []
        = ps.tail) ∧
    (∀ (key : String) (c : ModelCache.Cache) (kv : String × Img),
      (c.map Prod.fst).Nodup →
      c.find? (fun e => e.1 == key) = some kv →
      (ModelCache.get_cached_texture key c).1 = some kv.2 ∧
      (ModelCache.get_cached_texture key c).2.getLast? = some kv ∧
      (ModelCache.get_cached_texture key c).2.length = c.length) ∧
    (∀ (key : String) (tex : Img) (c : ModelCache.Cache),
      (ModelCache.cache_texture key tex c).getLast? = some (key, tex)) := by
  refine ⟨?_, ?_, ?_, ?_⟩
  · intro ops
    exact ModelCache.runOps_length_le ops [] (by simp)
  · intro ps hnd hlen
    rw [ModelCache.insertAll_fresh ps hnd, hlen]
    simp [List.drop_one]
  · intro key c kv hnd h
    exact ModelCache.get_cached_texture_promotes hnd h
  · intro key tex c
    exact ModelCache.cache_texture_mru key tex c

/-- C5 witness: (i) a concrete op sequence stays within bounds; (ii)
inserting 101 distinct keys into the empty cache drops exactly the
first; (iii) a hit on `"b"` returns its texture, moves it to the MRU
end and keeps the count; (iv) a put leaves its key at the MRU end. -/
theorem model_cache_lru_witness :
    (ModelCache.runOps [.put "a" [1], .get "a", .put "b" [2]] []).length
        ≤ ModelCache.max_size ∧
    ((List.range 101).map fun i => (Nat.repr i, ([i] : Img))).foldl
        (fun c kv => ModelCache.cache_texture kv.1 kv.2 c) []
      = ((List.range 101).map fun i => (Nat.repr i, ([i] : Img))).tail ∧
    ((ModelCache.get_cached_texture "b" [("a", [1]), ("b", [2])]).1
        = some [2] ∧
     (ModelCache.get_cached_texture "b" [("a", [1]), ("b", [2])]).2.getLast?
        = some ("b", [2]) ∧
     (ModelCache.get_cached_texture "b" [("a", [1]), ("b", [2])]).2.length
        = ([("a", [1]), ("b", [2])] : ModelCache.Cache).length) ∧
    (ModelCache.cache_texture "k" [7] [("a", [1])]).getLast?
        = some ("k", [7]) :=
  ⟨model_cache_lru.1 [.put "a" [1], .get "a", .put "b" [2]],
   model_cache_lru.2.1 ((List.range 101).map fun i => (Nat.repr i, [i]))
     (by with_unfolding_all decide) (by with_unfolding_all rfl),
   model_cache_lru.2.2.1 "b" [("a", [1]), ("b", [2])] ("b", [2])
     (by with_unfolding_all decide) (by with_unfolding_all rfl),
   model_cache_lru.2.2.2 "k" [7] [("a", [1])]⟩

/- ===================== Claim C1 ===================== -/

/-- Along the sequential loop, each processed lyric appends exactly one
scene whose `id` is its 1-based index, whatever the attempt loop did. -/
lemma seqFold_scenes_ids (gen : Nat → Img) (style : StyleProfile) (bpm : ℤ) :
    ∀ (ls : List Lyric) (k : Nat) (st : SeqState),
      (((ls.enumFrom k).foldl (seqStep gen style bpm) st).scenes.map
          fun s => s.id)
        = (st.scenes.map fun s => s.id) ++ List.range' (k + 1) ls.length := by
  intro ls
  induction ls with
  | nil => intro k st; simp
  | cons l ls ih =>
    intro k st
    have hstep : (seqStep gen style bpm st (k, l)).scenes.map (fun s => s.id)
        = (st.scenes.map fun s => s.id) ++ [k + 1] := by
      simp [seqStep]
    rw [show (l :: ls).enumFrom k = (k, l) :: ls.enumFrom (k + 1) from rfl,
      List.foldl_cons, ih, hstep, List.length_cons, List.range'_succ]
    simp

/-- The sequential path's scene ids are exactly `1..N`, in order. -/
lemma generate_styled_scenes_ids (data : JobData) (style : StyleProfile)
    (gen : Nat → Img) (cache0 : ModelCache.Cache) :
    ((generate_styled_scenes data style gen cache0).map fun s => s.id)
      = List.range' 1 data.lyrics.length := by
  unfold generate_styled_scenes generateStyledScenesState
  have h := seqFold_scenes_ids gen style (data.bpm.getD 120) data.lyrics 0
    { cache := cache0, previousImages := [], scenes := [], calls := 0 }
  rw [show data.lyrics.enum = data.lyrics.enumFrom 0 from rfl]
  simpa using h

/-- Collected (pre-sort) parallel scenes: the ids are `i + 1` for a
subsequence `t` of the completion order, all indices in range. -/
lemma parFold_ids (lyrics : List Lyric) (style : StyleProfile)
    (gen : Nat → Img) :
    ∀ (sched : List Nat) (acc : List Scene × List Img),
      ∃ t : List Nat, t.Sublist sched ∧ (∀ x ∈ t, x < lyrics.length) ∧
        ((sched.foldl (parStep lyrics style gen) acc).1.map fun s => s.id)
          = (acc.1.map fun s => s.id) ++ t.map (· + 1) := by
  intro sched
  induction sched with
  | nil => intro acc; exact ⟨[], List.Sublist.refl _, by simp, by simp⟩
  | cons i sched ih =>
    intro acc
    obtain ⟨t', hsub, hbnd, heq⟩ := ih (parStep lyrics style gen acc i)
    rw [List.foldl_cons]
    cases hget : lyrics[i]? with
    | none =>
      refine ⟨t', hsub.cons i, hbnd, ?_⟩
      rw [heq]
      simp [parStep, hget]
    | some lyric =>
      have hlt : i < lyrics.length := by
        by_contra hge
        rw [List.getElem?_eq_none (by omega)] at hget
        exact Option.noConfusion hget
      cases hu : UniquenessValidator.check_uniqueness (gen i) acc.2 with
      | true =>
        refine ⟨i :: t', hsub.cons₂ i, ?_, ?_⟩
        · intro x hx
          rcases List.mem_cons.mp hx with hx | hx
          · exact hx ▸ hlt
          · exact hbnd x hx
        · rw [heq]
          simp [parStep, hget, process_single_lyric, hu]
      | false =>
        refine ⟨t', hsub.cons i, hbnd, ?_⟩
        rw [heq]
        simp [parStep, hget, process_single_lyric, hu]

/-- C1 as amended: the sequential path always returns scene ids exactly
`1..N` in increasing order; the parallel path returns ids that are
strictly increasing and each in `1..N`, but a worker whose uniqueness
check fails (or whose task raises) contributes no scene, so under the
parallel path the sequence need not be the full contiguous `1..N`. -/
theorem scene_ids_sequential_contiguous_parallel_increasing :
    (∀ (data : JobData) (style : StyleProfile) (gen : Nat → Img)
        (cache0 : ModelCache.Cache),
      ((generate_styled_scenes data style gen cache0).map fun s => s.id)
        = List.range' 1 data.lyrics.length) ∧
    (∀ (lyrics : List Lyric) (style : StyleProfile) (gen : Nat → Img)
        (sched : List Nat), sched.Nodup →
      List.Sorted (· < ·)
        ((parallel_generate_scenes lyrics style gen sched).map
          fun s => s.id) ∧
      ∀ n ∈ (parallel_generate_scenes lyrics style gen sched).map
          fun s => s.id, 1 ≤ n ∧ n ≤ lyrics.length) := by
  constructor
  · exact generate_styled_scenes_ids
  · intro lyrics style gen sched hnodup
    obtain ⟨t, hsub, hbnd, heq⟩ := parFold_ids lyrics style gen sched ([], [])
    simp only [List.map_nil, List.nil_append] at heq
    unfold parallel_generate_scenes
    have hperm : ((sched.foldl (parStep lyrics style gen) ([], [])).1.mergeSort
          fun a b => a.id ≤ b.id).Perm
        (sched.foldl (parStep lyrics style gen) ([], [])).1 :=
      List.mergeSort_perm _ _
    have hpermIds := hperm.map fun s => s.id
    have hnodupT : t.Nodup := hnodup.sublist hsub
    have hnodupIds :
        ((sched.foldl (parStep lyrics style gen) ([], [])).1.map
          fun s => s.id).Nodup := by
      rw [heq]
      exact hnodupT.map fun a b hab => by omega
    have hnodupSorted := hpermIds.nodup_iff.mpr hnodupIds
    have hpairLe : List.Pairwise
        (fun a b : Scene => (decide (a.id ≤ b.id)) = true)
        ((sched.foldl (parStep lyrics style gen) ([], [])).1.mergeSort
          fun a b => a.id ≤ b.id) := by
      apply List.sorted_mergeSort
      · intro a b c h1 h2
        simp only [decide_eq_true_eq] at *
        omega
      · intro a b
        simp only [Bool.or_eq_true, decide_eq_true_eq]
        omega
    constructor
    · have hle : List.Pairwise (· ≤ ·)
          (((sched.foldl (parStep lyrics style gen) ([], [])).1.mergeSort
            fun a b => a.id ≤ b.id).map fun s => s.id) :=
        List.pairwise_map.mpr (hpairLe.imp fun h => of_decide_eq_true h)
      have hne : List.Pairwise (· ≠ ·)
          (((sched.foldl (parStep lyrics style gen) ([], [])).1.mergeSort
            fun a b => a.id ≤ b.id).map fun s => s.id) := hnodupSorted
      exact (hle.and hne).imp fun h => lt_of_le_of_ne h.1 h.2
    · intro n hn
      rw [hpermIds.mem_iff, heq] at hn
      obtain ⟨x, hx, hxn⟩ := List.mem_map.mp hn
      have := hbnd x hx
      omega

/-- C1 witness for the parallel conjunct: a 3-lyric job, distinct
backgrounds, completion order `[2, 0, 1]` — the returned ids are
strictly sorted and within `1..3`. -/
theorem scene_ids_parallel_increasing_witness :
    List.Sorted (· < ·)
      ((parallel_generate_scenes
          [{ text := "a" }, { text := "b" }, { text := "c" }] styleD
          (fun i => [i]) [2, 0, 1]).map fun s => s.id) :=
  (scene_ids_sequential_contiguous_parallel_increasing.2
    [{ text := "a" }, { text := "b" }, { text := "c" }] styleD
    (fun i => [i]) [2, 0, 1] (by decide)).1

/-- C1 counterexample: a valid 2-lyric job whose two generated
backgrounds are identical. The parallel path drops the second scene
(uniqueness check fails), so the returned id sequence is `[1]`, not the
contiguous `1..2` the claim requires on both paths. -/
theorem parallel_scene_ids_not_contiguous_counterexample :
    ((parallel_generate_scenes [{ text := "la" }, { text := "la" }] styleD
        (fun _ => imgA) [0, 1]).map fun s => s.id) = [1] ∧
    ([1] : List Nat) ≠ List.range' 1 2 := by
  constructor
  · with_unfolding_all rfl
  · decide

/- ===================== Claim C3 ===================== -/

/-- The sequential loop appends exactly one scene per lyric. -/
lemma seqFold_scenes_length (gen : Nat → Img) (style : StyleProfile)
    (bpm : ℤ) (ls : List Lyric) (k : Nat) (st : SeqState) :
    ((ls.enumFrom k).foldl (seqStep gen style bpm) st).scenes.length
      = st.scenes.length + ls.length := by
  have h := seqFold_scenes_ids gen style bpm ls k st
  have := congrArg List.length h
  simpa using this

/-- C3 as amended: on the sequential path each lyric's background goes
through the bounded attempt loop — at most `max_attempts` generator
calls — and the scene is always produced and kept, even when every
attempt fails the uniqueness check; on the parallel path a single
attempt is made per lyric and the worker returns no scene exactly when
its uniqueness check fails, so that scene is dropped rather than
kept. -/
theorem scene_kept_sequential_dropped_parallel :
    (∀ (data : JobData) (style : StyleProfile) (gen : Nat → Img)
        (cache0 : ModelCache.Cache),
      (generate_styled_scenes data style gen cache0).length
        = data.lyrics.length) ∧
    (∀ (gen : Nat → Img) (key : String) (budget : Nat)
        (cache : ModelCache.Cache) (prev : List Img) (calls : Nat),
      (runAttempts gen key budget cache prev calls).2.2.2 ≤ calls + budget) ∧
    (∀ (gen : Nat → Img) (style : StyleProfile) (prev : List Img) (i : Nat)
        (lyric : Lyric),
      (process_single_lyric gen style prev i lyric).1 = none ↔
        UniquenessValidator.check_uniqueness (gen i) prev = false) := by
  refine ⟨?_, ?_, ?_⟩
  · intro data style gen cache0
    have h := generate_styled_scenes_ids data style gen cache0
    have := congrArg List.length h
    simpa using this
  · intro gen key budget
    induction budget with
    | zero => intro cache prev calls; simp [runAttempts]
    | succ b ih =>
      intro cache prev calls
      rw [runAttempts]
      split
      · split
        · simp
        · split
          · simp
          · exact (ih cache prev calls).trans (by omega)
      · split
        · simp
        · split
          · simp
          · exact (ih _ prev (calls + 1)).trans (by omega)
  · intro gen style prev i lyric
    cases hu : UniquenessValidator.check_uniqueness (gen i) prev with
    | true => simp [process_single_lyric, hu]
    | false => simp [process_single_lyric, hu]

/-- C3 counterexample: a 2-lyric job with identical generated
backgrounds. On the parallel path the second worker's uniqueness check
fails and its scene is dropped — only 1 of 2 scenes survives — where
the claim requires the scene to be produced and kept. -/
theorem parallel_scene_not_kept_counterexample :
    (parallel_generate_scenes [{ text := "la" }, { text := "la" }] styleD
        (fun _ => imgA) [0, 1]).length = 1 ∧ (1 : Nat) ≠ 2 := by
  constructor
  · with_unfolding_all rfl
  · decide

/- ===================== Claim C7 ===================== -/

/-- C7: `ParallelProcessor.parallel_generate_scenes` takes no lock
around the shared-list read (`check_uniqueness(image, previous_images)`)
and the subsequent `previous_images.append(image)`. Under the
interleaving `[0, 1, 0, 1]` — both workers run their uniqueness read
before either appends — two identical backgrounds are both accepted
(first two conjuncts), the outcome the claimed atomic critical section
exists to exclude: had check-and-append been atomic, the second worker
would have seen the first image and rejected (third conjunct). -/
theorem shared_list_race_both_accept :
    (SharedListRace.run (n := 2) (fun _ => imgA) [0, 1, 0, 1]).accepted
        = [0, 1] ∧
    (SharedListRace.run (n := 2) (fun _ => imgA) [0, 1, 0, 1]).prev
        = [imgA, imgA] ∧
    UniquenessValidator.check_uniqueness imgA [imgA] = false := by
  refine ⟨?_, ?_, ?_⟩ <;> with_unfolding_all rfl
